import Mathlib

/-!
Shallow embedding of the image-generation service in `main.py` (a FastAPI
app exposing `POST /generate`).  Pure control flow and string manipulation
are translated directly; external effects (the upstream HTTP call, the S3
`put_object` call, the clock) are passed in as explicit parameters, and the
functions return, besides their result, a trace of which collaborator calls
they made.
-/

namespace Flux

/-- Python/JSON values as they appear in request payloads and upstream
response bodies. -/
inductive Json where
  | null
  | bool (b : Bool)
  | num (n : Int)
  | str (s : String)
  | arr (elems : List Json)
  | obj (fields : List (String × Json))

/-- Python truthiness (`if not x`): `None`, `False`, `0`, `""`, `[]` and
`{}` are falsy, everything else truthy. -/
def pyTruthy : Json → Bool
  | Json.null => false
  | Json.bool b => b
  | Json.num n => n != 0
  | Json.str s => s != ""
  | Json.arr xs => !xs.isEmpty
  | Json.obj fs => !fs.isEmpty

/-- Python `str.startswith(pre)`. -/
def pyStartsWith (s pre : String) : Bool :=
  pre.data.isPrefixOf s.data

/-- Helper for Python `str.split(sep)` with a one-character separator:
splits at every occurrence of `sep`, keeping empty segments. -/
def pySplitAux (sep : Char) : List Char → List Char → List (List Char)
  | [], acc => [acc.reverse]
  | c :: rest, acc =>
    if c = sep then acc.reverse :: pySplitAux sep rest []
    else pySplitAux sep rest (c :: acc)

/-- Python `s.split(sep)` for a one-character separator. -/
def pySplit (s : String) (sep : Char) : List String :=
  (pySplitAux sep s.data []).map List.asString

/-- The base64 value of an alphabet character, `none` for characters
outside the standard base64 alphabet. -/
def b64Sextet (c : Char) : Option Nat :=
  if 'A' ≤ c ∧ c ≤ 'Z' then some (c.toNat - 65)
  else if 'a' ≤ c ∧ c ≤ 'z' then some (c.toNat - 97 + 26)
  else if '0' ≤ c ∧ c ≤ '9' then some (c.toNat - 48 + 52)
  else if c = '+' then some 62
  else if c = '/' then some 63
  else none

/-- Bytes of a full base64 quad of sextets. -/
def b64EmitQuad (a b c d : Nat) : List Nat :=
  [a * 4 + b / 16, (b % 16) * 16 + c / 4, (c % 4) * 64 + d]

/-- Bytes of a padded (2- or 3-sextet) final base64 group. -/
def b64EmitPartial : List Nat → List Nat
  | [a, b] => [a * 4 + b / 16]
  | [a, b, c] => [a * 4 + b / 16, (b % 16) * 16 + c / 4]
  | _ => []

/-- Error message of the `binascii.Error` CPython raises for base64 input
whose data-character count is wrong for its padding (the exact wording
varies across CPython versions). -/
def invalidPaddingMsg : String := "Invalid padding"

/-- Error message CPython raises when the number of base64 data characters
is 1 more than a multiple of 4. -/
def invalidLengthMsg : String :=
  "Invalid base64-encoded string: number of data characters cannot be 1 more than a multiple of 4"

/-- Models CPython `binascii.a2b_base64` in non-strict mode (the engine of
`base64.b64decode(s)`): characters outside the alphabet are skipped
without touching the pad counter; a `=` seen while the current quad holds
fewer than two data characters is skipped without counting; a `=` seen
with a quad of at least two characters increments the pad counter and
finishes decoding once quad length plus pads reaches 4; consuming a data
character resets the pad counter to zero; and a leftover partial quad at
end of input is a `binascii.Error`. -/
def b64decodeAux : List Char → List Nat → Nat → Except String (List Nat)
  | [], quad, _ =>
    if quad.length = 0 then Except.ok []
    else if quad.length = 1 then Except.error invalidLengthMsg
    else Except.error invalidPaddingMsg
  | c :: rest, quad, pads =>
    if c = '=' then
      if 2 ≤ quad.length then
        if 4 ≤ quad.length + (pads + 1) then
          Except.ok (b64EmitPartial quad)
        else b64decodeAux rest quad (pads + 1)
      else b64decodeAux rest quad pads
    else
      match b64Sextet c with
      | none => b64decodeAux rest quad pads
      | some v =>
        match quad ++ [v] with
        | [a, b, c2, d] =>
          match b64decodeAux rest [] 0 with
          | Except.ok tail => Except.ok (b64EmitQuad a b c2 d ++ tail)
          | Except.error e => Except.error e
        | q => b64decodeAux rest q 0

/-- Python `base64.b64decode(s)` on text input, returning the decoded
bytes or the `binascii.Error` message. -/
def b64decode (s : String) : Except String (List Nat) :=
  b64decodeAux s.data [] 0

/-- FastAPI `HTTPException(status_code, detail)`. -/
structure HTTPException where
  status_code : Nat
  detail : String
  deriving DecidableEq

/-- The process environment (`os.environ`): a partial map from variable
names to values. -/
abbrev Env := String → Option String

def FLUX_API_KEY : String := "FLUX_API_KEY"

def R2_ENDPOINT_URL : String := "R2_ENDPOINT_URL"

def R2_ACCESS_KEY_ID : String := "R2_ACCESS_KEY_ID"

def R2_SECRET_ACCESS_KEY : String := "R2_SECRET_ACCESS_KEY"

def R2_BUCKET_NAME : String := "R2_BUCKET_NAME"

def R2_PUBLIC_DOMAIN : String := "R2_PUBLIC_DOMAIN"

/-- Message of the `HTTPException` raised when an environment variable is
absent: `f"{var} environment variable not set"`. -/
def envNotSetMsg (v : String) : String := v ++ " environment variable not set"

/-- Exceptions that can be raised inside the `try` blocks of `main.py`,
distinguished by the classes the `except` clauses match on. -/
inductive PyExc where
  | httpExc (e : HTTPException)
  | httpStatusError (status : Nat) (msg : String)
  | jsonDecodeError
  | otherExc (msg : String)
  deriving DecidableEq

/-- Python `str(e)` for each modelled exception.  For a Starlette/FastAPI
`HTTPException` this is `f"{status_code}: {detail}"`. -/
def pyStr : PyExc → String
  | PyExc.httpExc e => toString e.status_code ++ ": " ++ e.detail
  | PyExc.httpStatusError _ m => m
  | PyExc.jsonDecodeError => "Expecting value"
  | PyExc.otherExc m => m

/-- Models `str(e)` of the `httpx.HTTPStatusError` raised by
`response.raise_for_status()` for a non-2xx status. -/
def statusErrorStr (status : Nat) : String :=
  "HTTP status error " ++ toString status

/-- `response.raise_for_status()` raises exactly when the status is not a
2xx success status. -/
def is2xx (s : Nat) : Bool := 200 ≤ s ∧ s ≤ 299

/-- The reply of the upstream generation API: an HTTP status plus either a
parsed JSON body or a `json.JSONDecodeError` for an unparsable body. -/
structure UpstreamResponse where
  status : Nat
  body : Except String Json

/-- Message of the `AttributeError` raised by `.get` on a non-dict. -/
def attrGetMsg : String := "object has no attribute get"

/-- Message of the `AttributeError` raised by `.startswith` on a
non-string. -/
def attrStartswithMsg : String := "object has no attribute startswith"

/-- Python `d.get(k)`: `None` for a missing key on a dict, an
`AttributeError` on anything that is not a dict. -/
def dictGet : Json → String → Except String Json
  | Json.obj fields, k => Except.ok ((fields.lookup k).getD Json.null)
  | _, _ => Except.error attrGetMsg

def resultKey : String := "result"

def promptKey : String := "prompt"

/-- The required data-URL start checked by `generate_image`. -/
def pngDataHeader : String := "data:image/png;base64,"

def fluxKeyMissingMsg : String := "FLUX_API_KEY environment variable not set"

def invalidImageDataMsg : String := "Invalid image data response"

def invalidApiResponseMsg : String := "Invalid API response format"

def promptRequiredMsg : String := "Prompt is required"

def genFailedPre : String := "Image generation failed: "

def genErrorPre : String := "Image generation error: "

def r2FailedPre : String := "R2 upload failed: "

/-- The `try` block of `generate_image` (main.py lines 41-79): check
`FLUX_API_KEY`, post to the API (`raise_for_status`, then `.json()`),
read the `result` field, check truthiness and the PNG data-URL head, and
return `image_data_url.split(",")[1]`. -/
def generate_image_tryBody (env : Env) (_prompt : Json) (resp : UpstreamResponse) :
    Except PyExc String :=
  if env FLUX_API_KEY = none then
    Except.error (PyExc.httpExc ⟨500, fluxKeyMissingMsg⟩)
  else if !is2xx resp.status then
    Except.error (PyExc.httpStatusError resp.status (statusErrorStr resp.status))
  else
    match resp.body with
    | Except.error _ => Except.error PyExc.jsonDecodeError
    | Except.ok response_json =>
      match dictGet response_json resultKey with
      | Except.error m => Except.error (PyExc.otherExc m)
      | Except.ok image_data_url =>
        if !pyTruthy image_data_url then
          Except.error (PyExc.httpExc ⟨500, invalidImageDataMsg⟩)
        else
          match image_data_url with
          | Json.str s =>
            if !pyStartsWith s pngDataHeader then
              Except.error (PyExc.httpExc ⟨500, invalidImageDataMsg⟩)
            else Except.ok ((pySplit s (',')).getD 1 (""))
          | _ => Except.error (PyExc.otherExc attrStartswithMsg)

/-- `generate_image` (main.py lines 40-94): the `try` body above with its
`except` ladder — `httpx.HTTPStatusError` becomes an `HTTPException`
carrying the upstream status, `json.JSONDecodeError` becomes a 500, and
every other exception (including `HTTPException`s raised inside the `try`)
is wrapped by the catch-all into a 500 with detail
`f"Image generation error: {str(e)}"`. -/
def generate_image (env : Env) (prompt : Json) (resp : UpstreamResponse) :
    Except HTTPException String :=
  match generate_image_tryBody env prompt resp with
  | Except.ok v => Except.ok v
  | Except.error (PyExc.httpStatusError st m) =>
    Except.error ⟨st, genFailedPre ++ m⟩
  | Except.error PyExc.jsonDecodeError =>
    Except.error ⟨500, invalidApiResponseMsg⟩
  | Except.error e => Except.error ⟨500, genErrorPre ++ pyStr e⟩

/-- The keyword arguments of the `s3_client.put_object` call
(main.py lines 111-117). -/
structure PutObjectArgs where
  Bucket : String
  Key : String
  Body : List Nat
  ContentType : String
  deriving DecidableEq

/-- The object key `f"generated_image_{timestamp}.png"` with
`timestamp = int(time.time())` in whole seconds. -/
def objectKey (timestamp : Nat) : String :=
  "generated_image_" ++ toString timestamp ++ ".png"

/-- `upload_to_r2` (main.py lines 96-124): check `R2_BUCKET_NAME` and
`R2_PUBLIC_DOMAIN`, base64-decode, then `put_object` and return the
public URL.  Every exception raised in the `try` (the `HTTPException`s
for missing variables, the `binascii.Error` from decoding, the storage
error) is wrapped by the single catch-all into a 500 with detail
`f"R2 upload failed: {str(e)}"`.  `timestamp` is the clock read
`int(time.time())` and `putOutcome` is the outcome of the external
`put_object` call; the second component records the `put_object` call if
one was made. -/
def upload_to_r2 (env : Env) (image_data : String) (timestamp : Nat)
    (putOutcome : Except String Unit) :
    Except HTTPException String × Option PutObjectArgs :=
  if env R2_BUCKET_NAME = none then
    (Except.error ⟨500, r2FailedPre ++ pyStr (PyExc.httpExc ⟨500, envNotSetMsg R2_BUCKET_NAME⟩)⟩,
      none)
  else if env R2_PUBLIC_DOMAIN = none then
    (Except.error ⟨500, r2FailedPre ++ pyStr (PyExc.httpExc ⟨500, envNotSetMsg R2_PUBLIC_DOMAIN⟩)⟩,
      none)
  else
    match b64decode image_data with
    | Except.error m => (Except.error ⟨500, r2FailedPre ++ m⟩, none)
    | Except.ok image_bytes =>
      let object_name := objectKey timestamp
      let args : PutObjectArgs :=
        ⟨(env R2_BUCKET_NAME).getD (""), object_name, image_bytes, "image/png"⟩
      match putOutcome with
      | Except.error m => (Except.error ⟨500, r2FailedPre ++ m⟩, some args)
      | Except.ok _ =>
        (Except.ok ("https://" ++ (env R2_PUBLIC_DOMAIN).getD ("") ++ "/" ++ object_name),
          some args)

/-- `lifespan` (main.py lines 24-36): run at process startup; `boto3.client`
is called with the `os.environ` subscripts for `R2_ENDPOINT_URL`, `R2_ACCESS_KEY_ID`
and `R2_SECRET_ACCESS_KEY`, which raise
`KeyError` (crashing startup) when the variable is absent; argument
expressions are evaluated left to right. -/
def lifespan (env : Env) : Except String Unit :=
  if env R2_ENDPOINT_URL = none then Except.error ("KeyError: " ++ R2_ENDPOINT_URL)
  else if env R2_ACCESS_KEY_ID = none then Except.error ("KeyError: " ++ R2_ACCESS_KEY_ID)
  else if env R2_SECRET_ACCESS_KEY = none then Except.error ("KeyError: " ++ R2_SECRET_ACCESS_KEY)
  else Except.ok ()

/-- What one request to `POST /generate` did: the prompt passed to
`generate_image` if it was called, the base64 text passed to
`upload_to_r2` if it was called, the `put_object` call if one was made,
and the HTTP outcome (`ok url` stands for the 200 body
`{"image_url": url}`). -/
structure EndpointTrace where
  generateCalled : Option Json
  uploadCalled : Option String
  putCalled : Option PutObjectArgs
  result : Except HTTPException String

/-- `payload.get("prompt")`: the payload is a dict (enforced by the
`payload: dict` annotation on the endpoint), so this is a plain lookup with
`None` for a missing key. -/
def payloadPrompt (payload : List (String × Json)) : Json :=
  (payload.lookup promptKey).getD Json.null

/-- `generate_endpoint` (main.py lines 126-150): reject a falsy prompt
with 400, else run `generate_image` then `upload_to_r2`.  The `except
HTTPException` clause re-raises unchanged, and both collaborators only
produce `HTTPException`s, so errors pass through verbatim. -/
def generate_endpoint (payload : List (String × Json)) (env : Env)
    (resp : UpstreamResponse) (timestamp : Nat) (putOutcome : Except String Unit) :
    EndpointTrace :=
  let prompt := payloadPrompt payload
  if !pyTruthy prompt then
    ⟨none, none, none, Except.error ⟨400, promptRequiredMsg⟩⟩
  else
    match generate_image env prompt resp with
    | Except.error e => ⟨some prompt, none, none, Except.error e⟩
    | Except.ok base64_image =>
      let r := upload_to_r2 env base64_image timestamp putOutcome
      ⟨some prompt, some base64_image, r.2, r.1⟩

/-- The status code of an error outcome, `none` for success. -/
def resultStatus : Except HTTPException String → Option Nat
  | Except.error e => some e.status_code
  | Except.ok _ => none

/-- The well-formedness condition on the upstream `result` field as the
spec states it: present, truthy, and a string bearing the PNG data-URL
head.  Its complement is the "missing, falsy, or wrong head" condition. -/
def resultFieldOk (r : Json) : Bool :=
  pyTruthy r &&
    (match r with
     | Json.str s => pyStartsWith s pngDataHeader
     | _ => false)

/-- Exactly the `result` values on which `generate_image` raises
`HTTPException(500, "Invalid image data response")` inside its `try`:
falsy values and strings without the PNG data-URL head.  Truthy
non-strings instead hit an `AttributeError` on `.startswith`. -/
def raisesInvalidImageData : Json → Bool
  | Json.str s => !pyStartsWith s pngDataHeader
  | r => !pyTruthy r

/-- Modelled from the spec claim wording: the full suffix of a string
after its first comma (empty when there is no comma). -/
def specSuffixAfterFirstComma (s : String) : String :=
  List.asString ((s.data.dropWhile (fun c => c != ',')).tail)

/-- A fully configured environment for concrete instantiations. -/
def envFull : Env := fun k =>
  if k = FLUX_API_KEY then some ("K")
  else if k = R2_ENDPOINT_URL then some ("https://acct.r2.example")
  else if k = R2_ACCESS_KEY_ID then some ("AK")
  else if k = R2_SECRET_ACCESS_KEY then some ("SK")
  else if k = R2_BUCKET_NAME then some ("bkt")
  else if k = R2_PUBLIC_DOMAIN then some ("cdn.example.com")
  else none

/-- `envFull` with one variable removed. -/
def envNo (v : String) : Env := fun k => if k = v then none else envFull k

/-- An environment holding only the three variables the startup
`lifespan` context manager reads. -/
def envStartupOnly : Env := fun k =>
  if k = R2_ENDPOINT_URL ∨ k = R2_ACCESS_KEY_ID ∨ k = R2_SECRET_ACCESS_KEY then some ("v")
  else none

/-- A well-formed upstream data URL whose payload decodes to the bytes of
`ABC`. -/
def goodDataUrl : String := "data:image/png;base64,QUJD"

/-- A 2xx upstream reply carrying `goodDataUrl`. -/
def respGood : UpstreamResponse :=
  ⟨200, Except.ok (Json.obj [(resultKey, Json.str goodDataUrl)])⟩

/-- A data URL whose base64 segment itself contains a comma. -/
def commaDataUrl : String := "data:image/png;base64,AB,CD"

/-- Splitting a separator-free character list yields one segment. -/
theorem pySplitAux_no_sep (sep : Char) (l : List Char) :
    ∀ acc : List Char, sep ∉ l → pySplitAux sep l acc = [acc.reverse ++ l] := by
  induction l with
  | nil => intro acc _; simp [pySplitAux]
  | cons c rest ih =>
    intro acc h
    have h1 : ¬ (c = sep) := fun hc => h (by simp [hc])
    have h2 : sep ∉ rest := fun hm => h (by simp [hm])
    simp [pySplitAux, h1, ih (c :: acc) h2]

/-- A string extended on the right still starts with itself. -/
theorem pyStartsWith_append (a b : String) : pyStartsWith (a ++ b) a = true := by
  simp [pyStartsWith, String.data_append, List.isPrefixOf_iff_prefix, List.prefix_append]

/-- C1: a request whose `prompt` is absent, empty or otherwise falsy is
rejected with 400 and detail `Prompt is required`, and neither
`generate_image` nor `upload_to_r2` (nor `put_object`) is invoked. -/
theorem C1_falsy_prompt_yields_400 (payload : List (String × Json)) (env : Env)
    (resp : UpstreamResponse) (t : Nat) (p : Except String Unit)
    (h : pyTruthy (payloadPrompt payload) = false) :
    generate_endpoint payload env resp t p =
      ⟨none, none, none, Except.error ⟨400, promptRequiredMsg⟩⟩ := by
  simp [generate_endpoint, h]

/-- C1 witness: the empty payload has a falsy prompt and is rejected. -/
theorem C1_witness :
    generate_endpoint [] envFull respGood 5 (Except.ok ()) =
      ⟨none, none, none, Except.error ⟨400, promptRequiredMsg⟩⟩ :=
  C1_falsy_prompt_yields_400 [] envFull respGood 5 (Except.ok ()) rfl

/-- C2: with bucket and domain configured, every `put_object` call issued
at clock read `t` uses key `generated_image_<t>.png`; a successful call
returns exactly `https://<domain>/<key>` (otherwise it fails with 500);
and two calls sharing the clock read `t` derive identical keys. -/
theorem C2_key_derivation (env : Env) (d d2 : String) (t : Nat)
    (p p2 : Except String Unit) (dom : String) (args args2 : PutObjectArgs)
    (hdom : env R2_PUBLIC_DOMAIN = some dom)
    (hargs : (upload_to_r2 env d t p).2 = some args)
    (hargs2 : (upload_to_r2 env d2 t p2).2 = some args2) :
    args.Key = "generated_image_" ++ toString t ++ ".png" ∧
    args2.Key = args.Key ∧
    ((upload_to_r2 env d t p).1 = Except.ok ("https://" ++ dom ++ "/" ++ args.Key) ∨
      resultStatus (upload_to_r2 env d t p).1 = some 500) := by
  by_cases hb : env R2_BUCKET_NAME = none
  · simp [upload_to_r2, hb] at hargs
  · rcases hd : b64decode d with m | bs
    · simp [upload_to_r2, hb, hdom, hd] at hargs
    · rcases hd2 : b64decode d2 with m2 | bs2
      · simp [upload_to_r2, hb, hdom, hd2] at hargs2
      · have hk : args.Key = objectKey t := by
          rcases p with m3 | u <;>
            · simp [upload_to_r2, hb, hdom, hd] at hargs
              rw [← hargs]
        have hk2 : args2.Key = objectKey t := by
          rcases p2 with m4 | u2 <;>
            · simp [upload_to_r2, hb, hdom, hd2] at hargs2
              rw [← hargs2]
        refine ⟨hk, hk2.trans hk.symm, ?_⟩
        rcases p with m3 | u
        · right; simp [upload_to_r2, hb, hdom, hd, resultStatus]
        · left; simp [upload_to_r2, hb, hdom, hd, hk, objectKey]

/-- C2 witness: two concrete uploads at clock read 5 derive the same key
`generated_image_5.png`, and the successful one returns the public URL. -/
theorem C2_witness :
    (⟨("bkt"), objectKey 5, [65, 66, 67], ("image/png")⟩ : PutObjectArgs).Key =
        "generated_image_" ++ toString 5 ++ ".png" ∧
    (⟨("bkt"), objectKey 5, [105], ("image/png")⟩ : PutObjectArgs).Key =
        (⟨("bkt"), objectKey 5, [65, 66, 67], ("image/png")⟩ : PutObjectArgs).Key ∧
    ((upload_to_r2 envFull ("QUJD") 5 (Except.ok ())).1 =
        Except.ok ("https://" ++ ("cdn.example.com") ++ "/" ++
          (⟨("bkt"), objectKey 5, [65, 66, 67], ("image/png")⟩ : PutObjectArgs).Key) ∨
      resultStatus (upload_to_r2 envFull ("QUJD") 5 (Except.ok ())).1 = some 500) :=
  C2_key_derivation envFull ("QUJD") ("ab==") 5 (Except.ok ()) (Except.ok ())
    ("cdn.example.com") _ _ rfl rfl rfl

/-- C3: when a truthy prompt reaches a configured generation client and
the upstream API replies with a non-2xx status, the endpoint fails with
exactly that status and the uploader is never invoked. -/
theorem C3_upstream_status_passthrough (payload : List (String × Json)) (env : Env)
    (resp : UpstreamResponse) (t : Nat) (p : Except String Unit) (k : String)
    (hp : pyTruthy (payloadPrompt payload) = true)
    (hk : env FLUX_API_KEY = some k)
    (hs : is2xx resp.status = false) :
    resultStatus (generate_endpoint payload env resp t p).result = some resp.status ∧
    (generate_endpoint payload env resp t p).uploadCalled = none ∧
    (generate_endpoint payload env resp t p).putCalled = none := by
  have hg : generate_image env (payloadPrompt payload) resp =
      Except.error ⟨resp.status, genFailedPre ++ statusErrorStr resp.status⟩ := by
    simp [generate_image, generate_image_tryBody, hk, hs]
  simp [generate_endpoint, hp, hg, resultStatus]

/-- C3 witness: an upstream 404 is passed through as a 404. -/
theorem C3_witness :
    resultStatus (generate_endpoint [(promptKey, Json.str ("cat"))] envFull
        ⟨404, Except.ok Json.null⟩ 5 (Except.ok ())).result = some 404 ∧
    (generate_endpoint [(promptKey, Json.str ("cat"))] envFull
        ⟨404, Except.ok Json.null⟩ 5 (Except.ok ())).uploadCalled = none ∧
    (generate_endpoint [(promptKey, Json.str ("cat"))] envFull
        ⟨404, Except.ok Json.null⟩ 5 (Except.ok ())).putCalled = none :=
  C3_upstream_status_passthrough [(promptKey, Json.str ("cat"))] envFull
    ⟨404, Except.ok Json.null⟩ 5 (Except.ok ()) ("K") rfl rfl rfl

/-- C4: a 2xx upstream JSON object whose `result` field is missing, falsy,
or not a string bearing the `data:image/png;base64,` head makes the
endpoint fail with 500, and the uploader is never invoked. -/
theorem C4_bad_result_yields_500 (payload : List (String × Json)) (env : Env)
    (t : Nat) (p : Except String Unit) (st : Nat) (j r : Json) (k : String)
    (hp : pyTruthy (payloadPrompt payload) = true)
    (hk : env FLUX_API_KEY = some k)
    (hs : is2xx st = true)
    (hr : dictGet j resultKey = Except.ok r)
    (hbad : resultFieldOk r = false) :
    resultStatus (generate_endpoint payload env ⟨st, Except.ok j⟩ t p).result = some 500 ∧
    (generate_endpoint payload env ⟨st, Except.ok j⟩ t p).uploadCalled = none ∧
    (generate_endpoint payload env ⟨st, Except.ok j⟩ t p).putCalled = none := by
  have htry : generate_image_tryBody env (payloadPrompt payload) ⟨st, Except.ok j⟩ =
        Except.error (PyExc.httpExc ⟨500, invalidImageDataMsg⟩) ∨
      generate_image_tryBody env (payloadPrompt payload) ⟨st, Except.ok j⟩ =
        Except.error (PyExc.otherExc attrStartswithMsg) := by
    by_cases hf : pyTruthy r = true
    · cases r with
      | str s =>
        have hsw : pyStartsWith s pngDataHeader = false := by
          simpa [resultFieldOk, hf] using hbad
        left
        simp [generate_image_tryBody, hk, hs, hr, hf, hsw]
      | null => simp [pyTruthy] at hf
      | bool b =>
        right; simp [generate_image_tryBody, hk, hs, hr, hf]
      | num n =>
        right; simp [generate_image_tryBody, hk, hs, hr, hf]
      | arr xs =>
        right; simp [generate_image_tryBody, hk, hs, hr, hf]
      | obj fs =>
        right; simp [generate_image_tryBody, hk, hs, hr, hf]
    · rw [Bool.not_eq_true] at hf
      left
      simp [generate_image_tryBody, hk, hs, hr, hf]
  rcases htry with h | h
  on_goal 1 =>
    have hgi : generate_image env (payloadPrompt payload) ⟨st, Except.ok j⟩ =
        Except.error ⟨500, genErrorPre ++ pyStr (PyExc.httpExc ⟨500, invalidImageDataMsg⟩)⟩ := by
      simp [generate_image, h]
  on_goal 2 =>
    have hgi : generate_image env (payloadPrompt payload) ⟨st, Except.ok j⟩ =
        Except.error ⟨500, genErrorPre ++ pyStr (PyExc.otherExc attrStartswithMsg)⟩ := by
      simp [generate_image, h]
  all_goals simp [generate_endpoint, hp, hgi, resultStatus]

/-- C4 witness: a 2xx reply whose `result` is a plain URL without the PNG
data-URL head yields a 500 and no upload. -/
theorem C4_witness :
    resultStatus (generate_endpoint [(promptKey, Json.str ("cat"))] envFull
        ⟨200, Except.ok (Json.obj [(resultKey, Json.str ("https://x.example/img.png"))])⟩
        5 (Except.ok ())).result = some 500 ∧
    (generate_endpoint [(promptKey, Json.str ("cat"))] envFull
        ⟨200, Except.ok (Json.obj [(resultKey, Json.str ("https://x.example/img.png"))])⟩
        5 (Except.ok ())).uploadCalled = none ∧
    (generate_endpoint [(promptKey, Json.str ("cat"))] envFull
        ⟨200, Except.ok (Json.obj [(resultKey, Json.str ("https://x.example/img.png"))])⟩
        5 (Except.ok ())).putCalled = none :=
  C4_bad_result_yields_500 [(promptKey, Json.str ("cat"))] envFull 5 (Except.ok ())
    200 (Json.obj [(resultKey, Json.str ("https://x.example/img.png"))])
    (Json.str ("https://x.example/img.png")) ("K") rfl rfl rfl rfl rfl

/-- C5 counterexample: on the data URL `data:image/png;base64,AB,CD`,
which passes the head check, `generate_image` returns `AB`
(Python `split(",")[1]`), not the full suffix `AB,CD` after the first
comma, so the claim as stated fails. -/
theorem C5_counterexample :
    generate_image envFull Json.null
        ⟨200, Except.ok (Json.obj [(resultKey, Json.str commaDataUrl)])⟩ =
      Except.ok ("AB") ∧
    specSuffixAfterFirstComma commaDataUrl = ("AB,CD") ∧
    ("AB") ≠ ("AB,CD") := by
  refine ⟨rfl, rfl, ?_⟩
  decide

/-- C5 amended: `generate_image` returns the segment of the data URL
between its first and second comma (`split(",")[1]`); when the payload
after the first comma contains no further comma — in particular for every
genuine base64 payload — this coincides with the full suffix after the
first comma. -/
theorem C5_amended_split_segment (env : Env) (k : String) (prompt : Json)
    (st : Nat) (j : Json) (rest : String)
    (hk : env FLUX_API_KEY = some k) (h2 : is2xx st = true)
    (hr : dictGet j resultKey = Except.ok (Json.str (pngDataHeader ++ rest)))
    (hc : (',') ∉ rest.data) :
    generate_image env prompt ⟨st, Except.ok j⟩ = Except.ok rest ∧
    specSuffixAfterFirstComma (pngDataHeader ++ rest) = rest := by
  have hsplit : pySplit (pngDataHeader ++ rest) (',') = [("data:image/png;base64"), rest] := by
    have h1 : pySplitAux (',') ((pngDataHeader ++ rest).data) [] =
        ("data:image/png;base64").data :: pySplitAux (',') rest.data [] := rfl
    unfold pySplit
    rw [h1, pySplitAux_no_sep (',') rest.data [] hc]
    rfl
  have htr : pyTruthy (Json.str (pngDataHeader ++ rest)) = true := rfl
  have hsw : pyStartsWith (pngDataHeader ++ rest) pngDataHeader = true :=
    pyStartsWith_append pngDataHeader rest
  constructor
  · simp [generate_image, generate_image_tryBody, hk, h2, hr, htr, hsw, hsplit]
  · rfl

/-- C5 amended witness: a comma-free payload `QUJD` comes back whole and
equals the full suffix after the first comma. -/
theorem C5_amended_witness :
    generate_image envFull Json.null
        ⟨200, Except.ok (Json.obj [(resultKey, Json.str (pngDataHeader ++ ("QUJD")))])⟩ =
      Except.ok ("QUJD") ∧
    specSuffixAfterFirstComma (pngDataHeader ++ ("QUJD")) = ("QUJD") :=
  C5_amended_split_segment envFull ("K") Json.null 200
    (Json.obj [(resultKey, Json.str (pngDataHeader ++ ("QUJD")))]) ("QUJD")
    rfl rfl rfl (by decide)

/-- C6 counterexample: with every variable set except `R2_ENDPOINT_URL`,
the startup `lifespan` subscripts `os.environ` at `R2_ENDPOINT_URL` and dies with
a `KeyError` — absence of that variable does crash the process at
startup, contrary to the claim. -/
theorem C6_counterexample :
    lifespan (envNo R2_ENDPOINT_URL) = Except.error ("KeyError: " ++ R2_ENDPOINT_URL) ∧
    lifespan (envNo R2_ENDPOINT_URL) ≠ Except.ok () := by
  refine ⟨rfl, fun h => ?_⟩
  rw [show lifespan (envNo R2_ENDPOINT_URL) =
      Except.error ("KeyError: " ++ R2_ENDPOINT_URL) from rfl] at h
  exact Except.noConfusion h

/-- C6 amended: startup reads only `R2_ENDPOINT_URL`, `R2_ACCESS_KEY_ID`
and `R2_SECRET_ACCESS_KEY`, and crashes with a `KeyError` if any of those
is absent; absence of `FLUX_API_KEY`, `R2_BUCKET_NAME` or
`R2_PUBLIC_DOMAIN` leaves startup untouched and instead fails the first
operation referencing it (generation or upload) with a 500 configuration
error. -/
theorem C6_amended_config_errors (env : Env) (prompt : Json)
    (resp : UpstreamResponse) (d : String) (t : Nat) (p : Except String Unit) :
    (env R2_ENDPOINT_URL ≠ none → env R2_ACCESS_KEY_ID ≠ none →
      env R2_SECRET_ACCESS_KEY ≠ none → lifespan env = Except.ok ()) ∧
    (env R2_ENDPOINT_URL = none → lifespan env ≠ Except.ok ()) ∧
    (env R2_ACCESS_KEY_ID = none → lifespan env ≠ Except.ok ()) ∧
    (env R2_SECRET_ACCESS_KEY = none → lifespan env ≠ Except.ok ()) ∧
    (env FLUX_API_KEY = none →
      resultStatus (generate_image env prompt resp) = some 500) ∧
    (env R2_BUCKET_NAME = none →
      resultStatus (upload_to_r2 env d t p).1 = some 500 ∧
      (upload_to_r2 env d t p).2 = none) ∧
    (env R2_PUBLIC_DOMAIN = none →
      resultStatus (upload_to_r2 env d t p).1 = some 500 ∧
      (upload_to_r2 env d t p).2 = none) := by
  refine ⟨?_, ?_, ?_, ?_, ?_, ?_, ?_⟩
  · intro h1 h2 h3; simp [lifespan, h1, h2, h3]
  · intro h1; simp [lifespan, h1]
  · intro h1
    by_cases h0 : env R2_ENDPOINT_URL = none <;> simp [lifespan, h0, h1]
  · intro h1
    by_cases h0 : env R2_ENDPOINT_URL = none <;>
      by_cases h2 : env R2_ACCESS_KEY_ID = none <;> simp [lifespan, h0, h1, h2]
  · intro h1; simp [generate_image, generate_image_tryBody, h1, resultStatus]
  · intro h1; simp [upload_to_r2, h1, resultStatus]
  · intro h1
    by_cases hb : env R2_BUCKET_NAME = none <;> simp [upload_to_r2, hb, h1, resultStatus]

/-- C6 amended witness: an environment holding only the three startup
variables starts up fine, while generation and upload each fail with 500;
and removing `R2_ENDPOINT_URL` makes startup fail. -/
theorem C6_amended_witness :
    lifespan envStartupOnly = Except.ok () ∧
    resultStatus (generate_image envStartupOnly Json.null respGood) = some 500 ∧
    resultStatus (upload_to_r2 envStartupOnly ("QUJD") 5 (Except.ok ())).1 = some 500 ∧
    lifespan (envNo R2_ENDPOINT_URL) ≠ Except.ok () :=
  ⟨(C6_amended_config_errors envStartupOnly Json.null respGood ("QUJD") 5
      (Except.ok ())).1 (by decide) (by decide) (by decide),
    (C6_amended_config_errors envStartupOnly Json.null respGood ("QUJD") 5
      (Except.ok ())).2.2.2.2.1 rfl,
    ((C6_amended_config_errors envStartupOnly Json.null respGood ("QUJD") 5
      (Except.ok ())).2.2.2.2.2.2 rfl).1,
    (C6_amended_config_errors (envNo R2_ENDPOINT_URL) Json.null respGood ("QUJD") 5
      (Except.ok ())).2.1 rfl⟩

/-- C7: the uploader is invoked only with the value of a successful
`generate_image` call; the endpoint returns the 200 success body exactly
when generation and upload both succeed, and then the body carries the
URL from the upload. -/
theorem C7_all_or_nothing (payload : List (String × Json)) (env : Env)
    (resp : UpstreamResponse) (t : Nat) (p : Except String Unit) (b u : String) :
    ((generate_endpoint payload env resp t p).uploadCalled = some b →
      generate_image env (payloadPrompt payload) resp = Except.ok b) ∧
    ((generate_endpoint payload env resp t p).result = Except.ok u →
      (generate_endpoint payload env resp t p).uploadCalled ≠ none ∧
      pyTruthy (payloadPrompt payload) = true) ∧
    ((generate_endpoint payload env resp t p).result = Except.ok u →
      (generate_endpoint payload env resp t p).uploadCalled = some b →
      (upload_to_r2 env b t p).1 = Except.ok u) ∧
    (pyTruthy (payloadPrompt payload) = true →
      generate_image env (payloadPrompt payload) resp = Except.ok b →
      (upload_to_r2 env b t p).1 = Except.ok u →
      (generate_endpoint payload env resp t p).result = Except.ok u) := by
  by_cases hp : pyTruthy (payloadPrompt payload) = true
  · cases hg : generate_image env (payloadPrompt payload) resp with
    | error e =>
      refine ⟨?_, ?_, ?_, ?_⟩ <;> simp [generate_endpoint, hp, hg]
    | ok b2 =>
      refine ⟨?_, ?_, ?_, ?_⟩
      · intro hb
        simp [generate_endpoint, hp, hg] at hb
        rw [hb]
      · intro _
        simp [generate_endpoint, hp, hg]
      · intro hu hb
        simp [generate_endpoint, hp, hg] at hu hb
        exact hb ▸ hu
      · intro _ hgb hup
        injection hgb with hb
        simp [generate_endpoint, hp, hg, hb, hup]
  · rw [Bool.not_eq_true] at hp
    refine ⟨?_, ?_, ?_, ?_⟩ <;> simp [generate_endpoint, hp]

/-- C7 witness: a full happy path — generation returns `QUJD`, upload
succeeds, and the endpoint returns the public URL. -/
theorem C7_witness :
    generate_image envFull (Json.str ("cat")) respGood = Except.ok ("QUJD") ∧
    (generate_endpoint [(promptKey, Json.str ("cat"))] envFull respGood 5
        (Except.ok ())).result =
      Except.ok ("https://cdn.example.com/generated_image_5.png") :=
  ⟨(C7_all_or_nothing [(promptKey, Json.str ("cat"))] envFull respGood 5
      (Except.ok ()) ("QUJD") ("https://cdn.example.com/generated_image_5.png")).1 rfl,
    (C7_all_or_nothing [(promptKey, Json.str ("cat"))] envFull respGood 5
      (Except.ok ()) ("QUJD") ("https://cdn.example.com/generated_image_5.png")).2.2.2
      rfl rfl rfl⟩

/-- C8: invalid base64 input makes `upload_to_r2` fail with 500 before
`put_object` is ever invoked; a failing `put_object` makes it fail with a
500 whose detail starts with `R2 upload failed: `. -/
theorem C8_upload_error_handling (env : Env) (d : String) (t : Nat)
    (p : Except String Unit) (msg m bkt dom : String) (bs : List Nat) :
    (b64decode d = Except.error msg →
      (upload_to_r2 env d t p).2 = none ∧
      resultStatus (upload_to_r2 env d t p).1 = some 500) ∧
    (env R2_BUCKET_NAME = some bkt → env R2_PUBLIC_DOMAIN = some dom →
      b64decode d = Except.ok bs →
      (upload_to_r2 env d t (Except.error m)).1 = Except.error ⟨500, r2FailedPre ++ m⟩ ∧
      pyStartsWith (r2FailedPre ++ m) r2FailedPre = true) := by
  constructor
  · intro hd
    by_cases hb : env R2_BUCKET_NAME = none
    · simp [upload_to_r2, hb, resultStatus]
    · by_cases hdom : env R2_PUBLIC_DOMAIN = none
      · simp [upload_to_r2, hb, hdom, resultStatus]
      · simp [upload_to_r2, hb, hdom, hd, resultStatus]
  · intro hb hdom hd
    exact ⟨by simp [upload_to_r2, hb, hdom, hd], pyStartsWith_append r2FailedPre m⟩

/-- C8 witness: the truncated input `abc` and the misplaced-padding input
`A=B=` are both rejected as base64 with a 500 and no `put_object`; on
valid input `QUJD` a failing `put_object` surfaces as a 500 prefixed with
`R2 upload failed: `. -/
theorem C8_witness :
    ((upload_to_r2 envFull ("abc") 5 (Except.ok ())).2 = none ∧
      resultStatus (upload_to_r2 envFull ("abc") 5 (Except.ok ())).1 = some 500) ∧
    ((upload_to_r2 envFull ("A=B=") 5 (Except.ok ())).2 = none ∧
      resultStatus (upload_to_r2 envFull ("A=B=") 5 (Except.ok ())).1 = some 500) ∧
    ((upload_to_r2 envFull ("QUJD") 5 (Except.error ("boom"))).1 =
        Except.error ⟨500, r2FailedPre ++ ("boom")⟩ ∧
      pyStartsWith (r2FailedPre ++ ("boom")) r2FailedPre = true) :=
  ⟨(C8_upload_error_handling envFull ("abc") 5 (Except.ok ()) invalidPaddingMsg
      ("boom") ("bkt") ("cdn.example.com") []).1 rfl,
    (C8_upload_error_handling envFull ("A=B=") 5 (Except.ok ()) invalidPaddingMsg
      ("boom") ("bkt") ("cdn.example.com") []).1 rfl,
    (C8_upload_error_handling envFull ("QUJD") 5 (Except.ok ()) invalidPaddingMsg
      ("boom") ("bkt") ("cdn.example.com") [65, 66, 67]).2 rfl rfl rfl⟩

/-- C9: an `HTTPException` raised inside the `try` of `generate_image`
(missing `FLUX_API_KEY`, invalid image data) or of `upload_to_r2`
(missing bucket or public-domain variable) is swallowed by the catch-all of that
function and re-raised as a fresh 500 whose detail prefixes
the stringified original with `Image generation error: ` or
`R2 upload failed: `, so the original detail never reaches the caller
unwrapped while the 500 status is preserved. -/
theorem C9_httpexceptions_rewrapped (env : Env) (prompt : Json)
    (resp : UpstreamResponse) (k bkt : String) (st : Nat) (j r : Json)
    (d : String) (t : Nat) (p : Except String Unit) :
    (env FLUX_API_KEY = none →
      generate_image env prompt resp =
        Except.error ⟨500,
          ("Image generation error: 500: FLUX_API_KEY environment variable not set")⟩) ∧
    (env FLUX_API_KEY = some k → is2xx st = true →
      dictGet j resultKey = Except.ok r → raisesInvalidImageData r = true →
      generate_image env prompt ⟨st, Except.ok j⟩ =
        Except.error ⟨500, ("Image generation error: 500: Invalid image data response")⟩) ∧
    (env R2_BUCKET_NAME = none →
      (upload_to_r2 env d t p).1 =
        Except.error ⟨500,
          ("R2 upload failed: 500: R2_BUCKET_NAME environment variable not set")⟩) ∧
    (env R2_BUCKET_NAME = some bkt → env R2_PUBLIC_DOMAIN = none →
      (upload_to_r2 env d t p).1 =
        Except.error ⟨500,
          ("R2 upload failed: 500: R2_PUBLIC_DOMAIN environment variable not set")⟩) := by
  refine ⟨?_, ?_, ?_, ?_⟩
  · intro h
    have hgi : generate_image env prompt resp =
        Except.error ⟨500, genErrorPre ++ pyStr (PyExc.httpExc ⟨500, fluxKeyMissingMsg⟩)⟩ := by
      simp [generate_image, generate_image_tryBody, h]
    exact hgi.trans rfl
  · intro hk h2 hr hbad
    have htry : generate_image_tryBody env prompt ⟨st, Except.ok j⟩ =
        Except.error (PyExc.httpExc ⟨500, invalidImageDataMsg⟩) := by
      cases r with
      | str s =>
        have hsw : pyStartsWith s pngDataHeader = false := by
          simpa [raisesInvalidImageData] using hbad
        by_cases ht : pyTruthy (Json.str s) = true
        · simp [generate_image_tryBody, hk, h2, hr, ht, hsw]
        · rw [Bool.not_eq_true] at ht
          simp [generate_image_tryBody, hk, h2, hr, ht]
      | null => simp [generate_image_tryBody, hk, h2, hr, pyTruthy]
      | bool b =>
        have hfb : pyTruthy (Json.bool b) = false := by
          simpa [raisesInvalidImageData] using hbad
        simp [generate_image_tryBody, hk, h2, hr, hfb]
      | num n =>
        have hfn : pyTruthy (Json.num n) = false := by
          simpa [raisesInvalidImageData] using hbad
        simp [generate_image_tryBody, hk, h2, hr, hfn]
      | arr xs =>
        have hfa : pyTruthy (Json.arr xs) = false := by
          simpa [raisesInvalidImageData] using hbad
        simp [generate_image_tryBody, hk, h2, hr, hfa]
      | obj fs =>
        have hfo : pyTruthy (Json.obj fs) = false := by
          simpa [raisesInvalidImageData] using hbad
        simp [generate_image_tryBody, hk, h2, hr, hfo]
    have hgi : generate_image env prompt ⟨st, Except.ok j⟩ =
        Except.error ⟨500, genErrorPre ++ pyStr (PyExc.httpExc ⟨500, invalidImageDataMsg⟩)⟩ := by
      simp [generate_image, htry]
    exact hgi.trans rfl
  · intro h1
    have hup : (upload_to_r2 env d t p).1 =
        Except.error ⟨500,
          r2FailedPre ++ pyStr (PyExc.httpExc ⟨500, envNotSetMsg R2_BUCKET_NAME⟩)⟩ := by
      simp [upload_to_r2, h1]
    exact hup.trans rfl
  · intro hb hdom
    have hup : (upload_to_r2 env d t p).1 =
        Except.error ⟨500,
          r2FailedPre ++ pyStr (PyExc.httpExc ⟨500, envNotSetMsg R2_PUBLIC_DOMAIN⟩)⟩ := by
      simp [upload_to_r2, hb, hdom]
    exact hup.trans rfl

/-- C9 witness: the four wrapped details observed on concrete inputs. -/
theorem C9_witness :
    generate_image (envNo FLUX_API_KEY) Json.null respGood =
      Except.error ⟨500,
        ("Image generation error: 500: FLUX_API_KEY environment variable not set")⟩ ∧
    generate_image envFull Json.null
        ⟨200, Except.ok (Json.obj [(resultKey, Json.str ("nope"))])⟩ =
      Except.error ⟨500, ("Image generation error: 500: Invalid image data response")⟩ ∧
    (upload_to_r2 (envNo R2_BUCKET_NAME) ("QUJD") 5 (Except.ok ())).1 =
      Except.error ⟨500,
        ("R2 upload failed: 500: R2_BUCKET_NAME environment variable not set")⟩ ∧
    (upload_to_r2 (envNo R2_PUBLIC_DOMAIN) ("QUJD") 5 (Except.ok ())).1 =
      Except.error ⟨500,
        ("R2 upload failed: 500: R2_PUBLIC_DOMAIN environment variable not set")⟩ :=
  ⟨(C9_httpexceptions_rewrapped (envNo FLUX_API_KEY) Json.null respGood ("K") ("bkt")
      200 Json.null Json.null ("QUJD") 5 (Except.ok ())).1 rfl,
    (C9_httpexceptions_rewrapped envFull Json.null respGood ("K") ("bkt") 200
      (Json.obj [(resultKey, Json.str ("nope"))]) (Json.str ("nope")) ("QUJD") 5
      (Except.ok ())).2.1 rfl rfl rfl rfl,
    (C9_httpexceptions_rewrapped (envNo R2_BUCKET_NAME) Json.null respGood ("K") ("bkt")
      200 Json.null Json.null ("QUJD") 5 (Except.ok ())).2.2.1 rfl,
    (C9_httpexceptions_rewrapped (envNo R2_PUBLIC_DOMAIN) Json.null respGood ("K")
      ("bkt") 200 Json.null Json.null ("QUJD") 5 (Except.ok ())).2.2.2 rfl rfl⟩

/-- C10: prompt validation is only a truthiness test — any truthy value,
string or not (a number, a non-empty list or object, a whitespace-only
string), skips the 400 branch and is forwarded as-is to
`generate_image`. -/
theorem C10_truthy_prompt_forwarded (payload : List (String × Json)) (env : Env)
    (resp : UpstreamResponse) (t : Nat) (p : Except String Unit)
    (h : pyTruthy (payloadPrompt payload) = true) :
    (generate_endpoint payload env resp t p).generateCalled =
      some (payloadPrompt payload) := by
  cases hg : generate_image env (payloadPrompt payload) resp <;>
    simp [generate_endpoint, h, hg]

/-- C10 witness: the number `5` and the whitespace-only string are both
forwarded untouched as the prompt. -/
theorem C10_witness :
    (generate_endpoint [(promptKey, Json.num 5)] envFull respGood 7
        (Except.ok ())).generateCalled = some (Json.num 5) ∧
    (generate_endpoint [(promptKey, Json.str (" "))] envFull respGood 7
        (Except.ok ())).generateCalled = some (Json.str (" ")) :=
  ⟨C10_truthy_prompt_forwarded [(promptKey, Json.num 5)] envFull respGood 7
      (Except.ok ()) rfl,
    C10_truthy_prompt_forwarded [(promptKey, Json.str (" "))] envFull respGood 7
      (Except.ok ()) rfl⟩

end Flux
